import Mathlib

/-!
Verification development for the alertmanager config syncer
(pkg/controllers/user/alert/configsyncer/configsyncer.go).

The Go source is shallowly embedded: pure functions become Lean functions,
the mutated `*alertconfig.Config` becomes explicit state passing, fallible
lookups return `Except`.  Helpers that live in sibling packages of the same
repository (common, manager, ref, monitoring) are modelled from the
specification and marked as such in their doc comments.
-/

deriving instance DecidableEq for Except

namespace ConfigSyncer

/-! ### Constants (configsyncer.go lines 31-36) -/

def defaultGroupInterval : Nat := 10

def eventGroupInterval : Nat := 1

def defaultGroupWait : Nat := 10

def defaultRepeatInterval : Nat := 10

/-! ### Data model: declarative inputs -/

/-- Per-rule timing override fields (v3.CommonRuleField, seconds). -/
structure CommonRuleField where
  groupWaitSeconds : Nat
  groupIntervalSeconds : Nat
  repeatIntervalSeconds : Nat
deriving DecidableEq

/-- A cluster-scoped alert rule.  The payload-kind pointers of the Go struct
(`EventRule`, `MetricRule`, `SystemServiceRule`, `NodeRule`) are modelled by
presence flags; the metric payload carries its expression string. -/
structure ClusterAlertRule where
  name : String
  groupName : String
  displayName : String
  severity : String
  alertState : String
  eventRule : Bool
  systemServiceRule : Bool
  nodeRule : Bool
  metricRule : Option String
  common : CommonRuleField
deriving DecidableEq

/-- A project-scoped alert rule (payload kinds: pod / workload / metric). -/
structure ProjectAlertRule where
  name : String
  groupName : String
  projectName : String
  displayName : String
  severity : String
  alertState : String
  podRule : Bool
  workloadRule : Bool
  metricRule : Option String
  common : CommonRuleField
deriving DecidableEq

/-- A recipient attached to an alert group: a notifier reference plus an
optional override address. -/
structure Recipient where
  notifierName : String
  recipient : String
deriving DecidableEq

/-- An alert group object as returned by the group listers; only the
recipients list is consulted by the syncer. -/
structure AlertGroup where
  recipients : List Recipient
deriving DecidableEq

structure PagerdutyNotifier where
  serviceKey : String
deriving DecidableEq

structure WebhookNotifier where
  url : String
deriving DecidableEq

structure SlackNotifier where
  url : String
  defaultRecipient : String
deriving DecidableEq

structure SMTPNotifier where
  host : String
  port : Nat
  password : String
  username : String
  tls : Bool
  defaultRecipient : String
  sender : String
deriving DecidableEq

/-- A notifier with exactly one configured channel in practice; the Go struct
holds four nullable channel configs checked in order. -/
structure Notifier where
  name : String
  pagerdutyConfig : Option PagerdutyNotifier
  webhookConfig : Option WebhookNotifier
  slackConfig : Option SlackNotifier
  smtpConfig : Option SMTPNotifier
deriving DecidableEq

/-! ### Data model: alertmanager configuration document -/

structure PagerdutyConfig where
  serviceKey : String
  description : String
deriving DecidableEq

structure WebhookConfig where
  url : String
deriving DecidableEq

structure SlackConfig where
  apiURL : String
  channel : String
  text : String
  title : String
  titleLink : String
  color : String
deriving DecidableEq

structure EmailConfig where
  smarthost : String
  authPassword : String
  authUsername : String
  requireTLS : Bool
  toAddr : String
  subjectHeader : String
  fromAddr : String
  html : String
deriving DecidableEq

structure Receiver where
  name : String
  pagerdutyConfigs : List PagerdutyConfig
  webhookConfigs : List WebhookConfig
  slackConfigs : List SlackConfig
  emailConfigs : List EmailConfig
deriving DecidableEq

/-- A routing-tree node (alertconfig.Route): label matchers, receiver name,
optional timing fields and child routes. -/
inductive Route where
  | mk (receiver : String) (mtch : List (String × String))
       (groupWait repeatInterval groupInterval : Option Nat)
       (routes : List Route)

def Route.receiver : Route → String
  | .mk r _ _ _ _ _ => r

def Route.mtch : Route → List (String × String)
  | .mk _ m _ _ _ _ => m

def Route.groupWait : Route → Option Nat
  | .mk _ _ gw _ _ _ => gw

def Route.repeatInterval : Route → Option Nat
  | .mk _ _ _ ri _ _ => ri

def Route.groupInterval : Route → Option Nat
  | .mk _ _ _ _ gi _ => gi

def Route.routes : Route → List Route
  | .mk _ _ _ _ _ rs => rs

/-- The configuration document: global defaults, receivers, root route. -/
structure Config where
  pagerdutyURL : String
  receivers : List Receiver
  route : Route

/-! ### Modelled collaborators -/

/-- Lexicographic comparison of character lists by code point. -/
def charListLe : List Char → List Char → Bool
  | [], _ => true
  | _ :: _, [] => false
  | a :: as, b :: bs =>
    if a.toNat < b.toNat then true
    else if b.toNat < a.toNat then false
    else charListLe as bs

/-- Lexicographic string order used for `sort.Strings`. -/
def strLe (a b : String) : Bool :=
  charListLe a.data b.data

/-- The order `strLe` as a relation, for use with the sorting library. -/
def strLeRel (a b : String) : Prop :=
  strLe a b = true

instance : DecidableRel strLeRel :=
  fun a b => inferInstanceAs (Decidable (strLe a b = true))

/-- Split a character list at the first colon, when one occurs. -/
def splitFirstColon : List Char → Option (List Char × List Char)
  | [] => none
  | c :: rest =>
    if c = ':' then some ([], rest)
    else
      match splitFirstColon rest with
      | none => none
      | some (a, b) => some (c :: a, b)

/-- Modelled from the spec: `ref.Parse` splits a composite id of the form
`namespace:name` at the first colon; an id with no colon is all name. -/
def refParse (id : String) : String × String :=
  match splitFirstColon id.data with
  | none => ("", id)
  | some (a, b) => (String.mk a, String.mk b)

/-- Modelled from the spec: `common.GetRuleID` derives the stable rule id
from the owning group id and the rule name. -/
def GetRuleID (groupID ruleName : String) : String :=
  groupID ++ "_" ++ ruleName

/-- Modelled from the spec: `controller.ObjectInCluster` keeps only rules
whose project belongs to the current cluster (rules outside the current
scope's projects are excluded). -/
def objectInCluster (clusterName : String) (a : ProjectAlertRule) : Bool :=
  (refParse a.projectName).1 == clusterName

/-- Modelled from the spec: namespace of the cluster-level monitoring stack
(`monitorutil.ClusterMonitoringInfo`). -/
def clusterMonitoringNamespace : String := "cattle-prometheus"

/-- Modelled from the spec: namespace of a project's monitoring stack
(`monitorutil.ProjectMonitoringInfo`). -/
def projectMonitoringNamespace (projectName : String) : String :=
  "cattle-prometheus-" ++ projectName

/-! ### Route builder (configsyncer.go lines 358-386) -/

def lookupMatch (k : String) (m : List (String × String)) : Option String :=
  (m.find? (fun p => p.1 == k)).map (fun p => p.2)

/-- Function `newRoute` (lines 363-379): builds a route whose receiver is the
`group_id` matcher value, always sets group-wait and repeat-interval, and
sets group-interval only when it differs from the default. -/
def newRoute (mtch : List (String × String)) (groupWait groupInterval repeatInterval : Nat) : Route :=
  Route.mk ((lookupMatch "group_id" mtch).getD "") mtch
    (some groupWait) (some repeatInterval)
    (if groupInterval ≠ defaultGroupInterval then some groupInterval else none)
    []

/-- Function `appendRoute` (lines 381-386). -/
def appendRoute : Route → Route → Route
  | .mk rcv m gw ri gi rs, sub => .mk rcv m gw ri gi (rs ++ [sub])

/-- Function `addRule` (lines 358-361): child route matching on the rule id, timing
taken from the rule's own fields. -/
def addRule (ruleID : String) (route : Route) (comm : CommonRuleField) : Route :=
  appendRoute route
    (newRoute [("rule_id", ruleID)] comm.groupWaitSeconds comm.groupIntervalSeconds
      comm.repeatIntervalSeconds)

/-! ### Recipient resolver (configsyncer.go lines 189-198, 388-458) -/

/-- Function `getNotifier` (lines 189-198): first notifier whose scope-prefixed name
equals the reference id. -/
def getNotifier (clusterName id : String) (notifiers : List Notifier) : Option Notifier :=
  notifiers.find? (fun n => clusterName ++ ":" ++ n.name == id)

def rancherTitleTmpl : String := "\x7b\x7b template \"rancher.title\" . \x7d\x7d"

def slackTextTmpl : String := "\x7b\x7b template \"slack.text\" . \x7d\x7d"

def emailTextTmpl : String := "\x7b\x7b template \"email.text\" . \x7d\x7d"

def slackColorTmpl : String :=
  "\x7b\x7b if eq (index .Alerts 0).Labels.severity \"critical\" \x7d\x7ddanger\x7b\x7b else if eq (index .Alerts 0).Labels.severity \"warning\" \x7d\x7dwarning\x7b\x7b else \x7d\x7dgood\x7b\x7b end \x7d\x7d"

/-- One step of `addRecipients`: resolve a single recipient against the
notifier set and append the channel config, tracking whether any resolved. -/
def addRecipientStep (clusterName : String) (notifiers : List Notifier)
    (acc : Bool × Receiver) (r : Recipient) : Bool × Receiver :=
  if r.notifierName ≠ "" then
    match getNotifier clusterName r.notifierName notifiers with
    | none => acc
    | some n =>
      match n.pagerdutyConfig with
      | some pd =>
        let cfg : PagerdutyConfig :=
          { serviceKey := if r.recipient ≠ "" then r.recipient else pd.serviceKey
            description := rancherTitleTmpl }
        (true, { acc.2 with pagerdutyConfigs := acc.2.pagerdutyConfigs ++ [cfg] })
      | none =>
      match n.webhookConfig with
      | some wh =>
        let cfg : WebhookConfig :=
          { url := if r.recipient ≠ "" then r.recipient else wh.url }
        (true, { acc.2 with webhookConfigs := acc.2.webhookConfigs ++ [cfg] })
      | none =>
      match n.slackConfig with
      | some sl =>
        let cfg : SlackConfig :=
          { apiURL := sl.url
            channel := if r.recipient ≠ "" then r.recipient else sl.defaultRecipient
            text := slackTextTmpl
            title := rancherTitleTmpl
            titleLink := ""
            color := slackColorTmpl }
        (true, { acc.2 with slackConfigs := acc.2.slackConfigs ++ [cfg] })
      | none =>
      match n.smtpConfig with
      | some sm =>
        let cfg : EmailConfig :=
          { smarthost := sm.host ++ ":" ++ toString sm.port
            authPassword := sm.password
            authUsername := sm.username
            requireTLS := sm.tls
            toAddr := if r.recipient ≠ "" then r.recipient else sm.defaultRecipient
            subjectHeader := rancherTitleTmpl
            fromAddr := sm.sender
            html := emailTextTmpl }
        (true, { acc.2 with emailConfigs := acc.2.emailConfigs ++ [cfg] })
      | none => acc
  else acc

/-- Function `addRecipients` (lines 388-458): returns the filled receiver and whether
at least one recipient resolved. -/
def addRecipients (clusterName : String) (notifiers : List Notifier)
    (receiver : Receiver) (recipients : List Recipient) : Bool × Receiver :=
  recipients.foldl (addRecipientStep clusterName notifiers) (false, receiver)

/-- The receiver shell `&alertconfig.Receiver{Name: groupID}`. -/
def emptyReceiver (name : String) : Receiver :=
  { name := name, pagerdutyConfigs := [], webhookConfigs := [], slackConfigs := [], emailConfigs := [] }

/-! ### Rule-CR store (Metric Rule Publisher collaborators)

The `manager.PromOperatorCRDManager` helpers live in a sibling package of the
same repository and are modelled from the spec's interface contracts. -/

/-- A single rule expression of a rule group entry
(`manager.Metric2Rule(groupID, ruleID, severity, displayName, clusterName, metric)`). -/
structure PromRuleEntry where
  groupID : String
  ruleID : String
  severity : String
  displayName : String
  clusterName : String
  expr : String
deriving DecidableEq

/-- A rule-group entry keyed by group id. -/
structure RuleGroup where
  name : String
  rules : List PromRuleEntry
deriving DecidableEq

/-- The per-scope rule-group artifact container. -/
structure PrometheusRule where
  ns : String
  name : String
  groups : List RuleGroup
deriving DecidableEq

/-- Modelled from the spec: get-or-create rule-group-entry(group-id). -/
def GetRuleGroup (groupID : String) : RuleGroup :=
  { name := groupID, rules := [] }

/-- Modelled from the spec: append-rule(entry, expression). -/
def AddRule (rg : RuleGroup) (r : PromRuleEntry) : RuleGroup :=
  { rg with rules := rg.rules ++ [r] }

/-- Modelled from the spec: attach-entry(artifact, entry). -/
def AddRuleGroup (pr : PrometheusRule) (rg : RuleGroup) : PrometheusRule :=
  { pr with groups := pr.groups ++ [rg] }

/-- Modelled from the spec: get-default-artifact(namespace, scope-name). -/
def GetDefaultPrometheusRule (ns name : String) : PrometheusRule :=
  { ns := ns, name := name, groups := [] }

/-- Modelled from the spec: `manager.Metric2Rule` derives a rule expression
keyed by (group id, rule id). -/
def Metric2Rule (groupID ruleID severity displayName clusterName expr : String) : PromRuleEntry :=
  { groupID := groupID, ruleID := ruleID, severity := severity
    displayName := displayName, clusterName := clusterName, expr := expr }

/-! ### Metric Rule Publisher (configsyncer.go lines 200-264)

`SyncPrometheusRule` is the publish call; a function returning the artifact
as `some`/a list element models that the publish was performed. -/

/-- Function `addClusterAlert2Operator` (lines 240-264): iterate sorted group keys,
attach one rule-group entry per key (entries collect the metric rules),
publish the container iff the loop ran at least once (`enabled`). -/
def addClusterAlert2Operator (clusterName : String)
    (groupRules : String → List ClusterAlertRule) (keys : List String) :
    Option PrometheusRule :=
  let init : Bool × PrometheusRule :=
    (false, GetDefaultPrometheusRule clusterMonitoringNamespace clusterName)
  let res := keys.foldl (fun acc groupID =>
    (true, AddRuleGroup acc.2 ((groupRules groupID).foldl (fun rg alertRule =>
      match alertRule.metricRule with
      | some m =>
        AddRule rg (Metric2Rule groupID (GetRuleID alertRule.groupName alertRule.name)
          alertRule.severity alertRule.displayName clusterName m)
      | none => rg) (GetRuleGroup groupID)))) init
  if res.1 then some res.2 else none

/-- Function `addProjectAlert2Operator` (lines 200-238): one container per project,
published iff that project's group-key list is nonempty; the published
containers are collected in project-key order. -/
def addProjectAlert2Operator (clusterName : String)
    (projectGroups : String → String → List ProjectAlertRule)
    (groupKeysOf : String → List String) : List String → List PrometheusRule
  | [] => []
  | projectID :: rest =>
    let projectName := (refParse projectID).2
    let init : Bool × PrometheusRule :=
      (false, GetDefaultPrometheusRule (projectMonitoringNamespace projectName) projectName)
    let res := (groupKeysOf projectID).foldl (fun acc groupID =>
      (true, AddRuleGroup acc.2 ((projectGroups projectID groupID).foldl (fun rg alertRule =>
        match alertRule.metricRule with
        | some m =>
          AddRule rg (Metric2Rule groupID (GetRuleID alertRule.groupName alertRule.name)
            alertRule.severity alertRule.displayName clusterName m)
        | none => rg) (GetRuleGroup groupID)))) init
    if res.1 then
      res.2 :: addProjectAlert2Operator clusterName projectGroups groupKeysOf rest
    else
      addProjectAlert2Operator clusterName projectGroups groupKeysOf rest

/-! ### Partitioning (sync, configsyncer.go lines 109-138) -/

/-- Unique keys in lexicographic order (`sort.Strings` over Go map keys). -/
def sortDedup (l : List String) : List String :=
  List.insertionSort strLeRel l.dedup

def activeClusterRules (rules : List ClusterAlertRule) : List ClusterAlertRule :=
  rules.filter (fun a => !(a.alertState == "inactive"))

/-- Partition `cAlertsMap` (lines 109-115): group name → rules with that group name
whose state is not `inactive`, in lister order. -/
def cAlertsMap (rules : List ClusterAlertRule) (g : String) : List ClusterAlertRule :=
  (activeClusterRules rules).filter (fun a => a.groupName == g)

/-- Keys `cAlertsKey` (lines 117-120): sorted group keys. -/
def cAlertsKey (rules : List ClusterAlertRule) : List String :=
  sortDedup ((activeClusterRules rules).map (fun a => a.groupName))

def activeProjectRules (clusterName : String) (rules : List ProjectAlertRule) :
    List ProjectAlertRule :=
  rules.filter (fun a => objectInCluster clusterName a && !(a.alertState == "inactive"))

def projectOf (a : ProjectAlertRule) : String :=
  (refParse a.projectName).2

/-- Partition `pAlertsMap` (lines 122-134): project name → group name → rules. -/
def pAlertsMap (clusterName : String) (rules : List ProjectAlertRule) (p g : String) :
    List ProjectAlertRule :=
  (activeProjectRules clusterName rules).filter
    (fun a => projectOf a == p && a.groupName == g)

/-- Keys `pAlertsKey` (lines 135-138): sorted project keys. -/
def pAlertsKey (clusterName : String) (rules : List ProjectAlertRule) : List String :=
  sortDedup ((activeProjectRules clusterName rules).map projectOf)

/-- Sorted group keys of one project's sub-map (recomputed at each use site
in the source, lines 207-211 and 269-273). -/
def pGroupKeys (clusterName : String) (rules : List ProjectAlertRule) (p : String) :
    List String :=
  sortDedup ((((activeProjectRules clusterName rules).filter
    (fun a => projectOf a == p)).map (fun a => a.groupName)))

/-! ### Config Assembler (configsyncer.go lines 266-356) -/

/-- Result of a group-lister `Get`: not-found is distinguished because the
source tolerates it (`apierrors.IsNotFound`). -/
inductive GetErr where
  | notFound
  | other (msg : String)
deriving DecidableEq

/-- Function `addClusterAlert2Config` (lines 314-356), recursion over the sorted group
keys with the config document threaded through. -/
def addClusterAlert2Config (clusterName : String) (notifiers : List Notifier)
    (lister : String → Except GetErr AlertGroup)
    (alerts : String → List ClusterAlertRule) :
    List String → Config → Except String Config
  | [], config => .ok config
  | groupID :: rest, config =>
    let groupName := (refParse groupID).2
    match lister groupName with
    | .error (.other e) =>
      .error ("get cluster alert group " ++ clusterName ++ ":" ++ groupName ++ " failed, " ++ e)
    | .error .notFound =>
      addClusterAlert2Config clusterName notifiers lister alerts rest config
    | .ok group =>
      let res := addRecipients clusterName notifiers (emptyReceiver groupID) group.recipients
      if res.1 then
        let r1 := newRoute [("group_id", groupID)] defaultGroupWait defaultRepeatInterval
          defaultGroupInterval
        let r1 := (alerts groupID).foldl (fun r alert =>
          if alert.alertState == "inactive" then r
          else
            let ruleID := GetRuleID groupID alert.name
            let r := if alert.eventRule then
                appendRoute r (newRoute [("alert_type", "event"), ("rule_id", ruleID)]
                  defaultGroupWait defaultRepeatInterval eventGroupInterval)
              else r
            if alert.metricRule.isSome || alert.systemServiceRule || alert.nodeRule then
              addRule ruleID r alert.common
            else r) r1
        addClusterAlert2Config clusterName notifiers lister alerts rest
          { config with receivers := config.receivers ++ [res.2]
                        route := appendRoute config.route r1 }
      else
        addClusterAlert2Config clusterName notifiers lister alerts rest config

/-- Inner loop of `addProjectAlert2Config` (lines 275-308): the sorted group
keys of one project. -/
def projectGroupLoop (clusterName projectName : String) (notifiers : List Notifier)
    (plister : String → String → Except GetErr AlertGroup)
    (groups : String → List ProjectAlertRule) :
    List String → Config → Except String Config
  | [], config => .ok config
  | groupID :: rest, config =>
    let groupName := (refParse groupID).2
    match plister projectName groupName with
    | .error (.other e) =>
      .error ("get project alert group " ++ projectName ++ ":" ++ groupName ++ " failed, " ++ e)
    | .error .notFound =>
      projectGroupLoop clusterName projectName notifiers plister groups rest config
    | .ok group =>
      let res := addRecipients clusterName notifiers (emptyReceiver groupID) group.recipients
      if res.1 then
        let r1 := newRoute [("group_id", groupID)] defaultGroupWait defaultRepeatInterval
          defaultGroupInterval
        let r1 := (groups groupID).foldl (fun r alert =>
          if alert.alertState == "inactive" then r
          else if alert.podRule || alert.workloadRule || alert.metricRule.isSome then
            addRule (GetRuleID groupID alert.name) r alert.common
          else r) r1
        projectGroupLoop clusterName projectName notifiers plister groups rest
          { config with receivers := config.receivers ++ [res.2]
                        route := appendRoute config.route r1 }
      else
        projectGroupLoop clusterName projectName notifiers plister groups rest config

/-- Function `addProjectAlert2Config` (lines 266-312): outer loop over sorted project
keys. -/
def addProjectAlert2Config (clusterName : String) (notifiers : List Notifier)
    (plister : String → String → Except GetErr AlertGroup)
    (projectGroups : String → String → List ProjectAlertRule)
    (groupKeysOf : String → List String) :
    List String → Config → Except String Config
  | [], config => .ok config
  | projectName :: rest, config =>
    match projectGroupLoop clusterName projectName notifiers plister
        (projectGroups projectName) (groupKeysOf projectName) config with
    | .error e => .error e
    | .ok c =>
      addProjectAlert2Config clusterName notifiers plister projectGroups groupKeysOf rest c

/-! ### Serialization

Modelled from the spec: the document is serialized to structured text by an
external yaml library; the encoding below is a fixed deterministic
structural rendering of the document. -/

def serializeOptDur : Option Nat → String
  | none => "-"
  | some n => toString n ++ "s"

def serializePair (p : String × String) : String :=
  p.1 ++ "=" ++ p.2

def serializeStrings (l : List String) : String :=
  String.intercalate "," l

mutual

def serializeRoute : Route → String
  | .mk rcv m gw ri gi rs =>
    "(receiver:" ++ rcv ++ ";match:[" ++ serializeStrings (m.map serializePair) ++
      "];group_wait:" ++ serializeOptDur gw ++ ";repeat_interval:" ++ serializeOptDur ri ++
      ";group_interval:" ++ serializeOptDur gi ++ ";routes:[" ++ serializeRouteList rs ++ "])"

def serializeRouteList : List Route → String
  | [] => ""
  | r :: rs => serializeRoute r ++ "," ++ serializeRouteList rs

end

def serializeReceiver (r : Receiver) : String :=
  "(name:" ++ r.name ++
    ";pagerduty:[" ++ serializeStrings (r.pagerdutyConfigs.map (fun c => c.serviceKey ++ "|" ++ c.description)) ++
    "];webhook:[" ++ serializeStrings (r.webhookConfigs.map (fun c => c.url)) ++
    "];slack:[" ++ serializeStrings (r.slackConfigs.map (fun c =>
      c.apiURL ++ "|" ++ c.channel ++ "|" ++ c.text ++ "|" ++ c.title ++ "|" ++ c.titleLink ++ "|" ++ c.color)) ++
    "];email:[" ++ serializeStrings (r.emailConfigs.map (fun c =>
      c.smarthost ++ "|" ++ c.authPassword ++ "|" ++ c.authUsername ++ "|" ++ toString c.requireTLS ++
        "|" ++ c.toAddr ++ "|" ++ c.subjectHeader ++ "|" ++ c.fromAddr ++ "|" ++ c.html)) ++ "])"

def serializeConfig (c : Config) : String :=
  "global:(pagerduty_url:" ++ c.pagerdutyURL ++ ");receivers:[" ++
    serializeStrings (c.receivers.map serializeReceiver) ++ "];route:" ++ serializeRoute c.route

/-! ### Sync Orchestrator (configsyncer.go lines 86-187) -/

/-- Modelled from the spec: `manager.GetAlertManagerDefaultConfig` builds the
global-defaults document with an empty root route. -/
def getAlertManagerDefaultConfig : Config :=
  { pagerdutyURL := "", receivers := [], route := Route.mk "" [] none none none [] }

/-- Modelled from the spec: `deployer.NotificationTmpl`, the fixed static
notification-template blob. -/
def NotificationTmpl : String := "rancher-notification-template"

/-- The two data keys of the alertmanager secret. -/
structure SecretData where
  alertmanagerYaml : String
  notificationTmpl : String
deriving DecidableEq

/-- Error wrapping `errors.Wrapf(err, msg)`. -/
def wrapErr (msg e : String) : String := msg ++ ": " ++ e

/-- All inputs a reconcile run reads from its collaborators. -/
structure SyncInput where
  isDeploy : Bool
  endpoint : Except String Unit
  notifiers : Except String (List Notifier)
  clusterRules : Except String (List ClusterAlertRule)
  projectRules : Except String (List ProjectAlertRule)
  clusterGroupLister : String → Except GetErr AlertGroup
  projectGroupLister : String → String → Except GetErr AlertGroup
  stored : SecretData

/-- Observable outcome of a reconcile run: the secret contents afterwards,
whether a secret write (publish) happened, and the rule-CR artifacts that
were published to the operator store. -/
structure SyncOutput where
  stored : SecretData
  published : Bool
  opCluster : Option PrometheusRule
  opProjects : List PrometheusRule
deriving DecidableEq

/-- Pure computation part of `sync` (lines 109-162): partitions, operator
artifacts, config assembly, serialization. -/
def computeData (clusterName : String) (notifiers : List Notifier)
    (clusterRules : List ClusterAlertRule) (projectRules : List ProjectAlertRule)
    (clister : String → Except GetErr AlertGroup)
    (plister : String → String → Except GetErr AlertGroup) :
    Except String (String × Option PrometheusRule × List PrometheusRule) :=
  let opC := addClusterAlert2Operator clusterName (cAlertsMap clusterRules) (cAlertsKey clusterRules)
  let opP := addProjectAlert2Operator clusterName (pAlertsMap clusterName projectRules)
    (pGroupKeys clusterName projectRules) (pAlertsKey clusterName projectRules)
  let config0 := { getAlertManagerDefaultConfig with
    pagerdutyURL := "https://events.pagerduty.com/generic/2010-04-15/create_event.json" }
  match addClusterAlert2Config clusterName notifiers clister (cAlertsMap clusterRules)
      (cAlertsKey clusterRules) config0 with
  | .error e => .error e
  | .ok c1 =>
    match addProjectAlert2Config clusterName notifiers plister
        (pAlertsMap clusterName projectRules) (pGroupKeys clusterName projectRules)
        (pAlertsKey clusterName projectRules) c1 with
    | .error e => .error e
    | .ok c2 => .ok (serializeConfig c2, opC, opP)

/-- Final conditional publish (lines 164-186): write both secret keys only
when the serialized config bytes differ from the stored bytes. -/
def publishStep (stored : SecretData) (data : String)
    (opC : Option PrometheusRule) (opP : List PrometheusRule) : SyncOutput :=
  if stored.alertmanagerYaml ≠ data then
    { stored := { alertmanagerYaml := data, notificationTmpl := NotificationTmpl }
      published := true, opCluster := opC, opProjects := opP }
  else
    { stored := stored, published := false, opCluster := opC, opProjects := opP }

/-- Function `sync` (lines 86-187). -/
def sync (clusterName : String) (inp : SyncInput) : Except String SyncOutput :=
  if inp.isDeploy = false then
    .ok { stored := inp.stored, published := false, opCluster := none, opProjects := [] }
  else
    match inp.endpoint with
    | .error e => .error e
    | .ok _ =>
      match inp.notifiers with
      | .error e => .error (wrapErr "List notifiers" e)
      | .ok notifiers =>
        match inp.clusterRules with
        | .error e => .error (wrapErr "List cluster alert rules" e)
        | .ok cRules =>
          match inp.projectRules with
          | .error e => .error (wrapErr "List project alert rules" e)
          | .ok pRules =>
            match computeData clusterName notifiers cRules pRules
                inp.clusterGroupLister inp.projectGroupLister with
            | .error e => .error e
            | .ok (data, opC, opP) => .ok (publishStep inp.stored data opC opP)

/-! ### Derived characterizations (used to state lemmas) -/

/-- The metric-derived rule entries of one cluster group, in rule order. -/
def metricEntriesC (clusterName groupID : String) (rules : List ClusterAlertRule) :
    List PromRuleEntry :=
  rules.filterMap (fun a => a.metricRule.map (fun m =>
    Metric2Rule groupID (GetRuleID a.groupName a.name) a.severity a.displayName clusterName m))

/-- The metric-derived rule entries of one project group, in rule order. -/
def metricEntriesP (clusterName groupID : String) (rules : List ProjectAlertRule) :
    List PromRuleEntry :=
  rules.filterMap (fun a => a.metricRule.map (fun m =>
    Metric2Rule groupID (GetRuleID a.groupName a.name) a.severity a.displayName clusterName m))

/-- The container published for one project. -/
def projectPromRuleFor (clusterName projectID : String)
    (groups : String → List ProjectAlertRule) (groupIDs : List String) : PrometheusRule :=
  { ns := projectMonitoringNamespace (refParse projectID).2
    name := (refParse projectID).2
    groups := groupIDs.map (fun g => RuleGroup.mk g (metricEntriesP clusterName g (groups g))) }

/-! ### Concrete fixtures for witnesses and counterexamples -/

/-- A slack notifier named `n1`. -/
def n1 : Notifier :=
  { name := "n1", pagerdutyConfig := none, webhookConfig := none
    slackConfig := some { url := "http://slack", defaultRecipient := "#alerts" }
    smtpConfig := none }

/-- A group whose single recipient resolves to `n1` in cluster `c1`. -/
def grp1 : AlertGroup :=
  { recipients := [{ notifierName := "c1:n1", recipient := "" }] }

/-- A group whose single recipient references an unknown notifier. -/
def grpUnresolved : AlertGroup :=
  { recipients := [{ notifierName := "c1:missing", recipient := "" }] }

/-- An active cluster event rule in group `c1:g1`. -/
def rEvent : ClusterAlertRule :=
  { name := "r1", groupName := "c1:g1", displayName := "d1", severity := "critical"
    alertState := "active", eventRule := true, systemServiceRule := false, nodeRule := false
    metricRule := none, common := { groupWaitSeconds := 10, groupIntervalSeconds := 10, repeatIntervalSeconds := 10 } }

/-- A metric rule whose state is `alerting`: not `active`, but also not
`inactive`. -/
def rAlerting : ClusterAlertRule :=
  { rEvent with alertState := "alerting", eventRule := false, metricRule := some "expr1" }

/-- Two active metric rules of the same group, distinct names. -/
def rM1 : ClusterAlertRule :=
  { rEvent with name := "ra", eventRule := false, metricRule := some "e1" }

def rM2 : ClusterAlertRule :=
  { rEvent with name := "rb", eventRule := false, metricRule := some "e2" }

/-- Two active metric rules of distinct groups. -/
def rGA : ClusterAlertRule :=
  { rEvent with name := "ra", groupName := "c1:ga", eventRule := false, metricRule := some "e1" }

def rGB : ClusterAlertRule :=
  { rEvent with name := "rb", groupName := "c1:gb", eventRule := false, metricRule := some "e2" }

/-- Cluster group lister knowing `g1`, `ga` and `gb`. -/
def clister1 : String → Except GetErr AlertGroup := fun g =>
  if g == "g1" || g == "ga" || g == "gb" then .ok grp1 else .error GetErr.notFound

/-- Project group lister that finds nothing. -/
def plisterNF : String → String → Except GetErr AlertGroup := fun _ _ =>
  .error GetErr.notFound

/-- A config document under construction, as a fixture. -/
def cfg0 : Config :=
  { getAlertManagerDefaultConfig with pagerdutyURL := "u" }

/-- A reconcile input whose monitoring stack is not deployed. -/
def inpNotDeployed : SyncInput :=
  { isDeploy := false, endpoint := .ok (), notifiers := .ok []
    clusterRules := .ok [], projectRules := .ok []
    clusterGroupLister := fun _ => .error GetErr.notFound
    projectGroupLister := plisterNF
    stored := { alertmanagerYaml := "y", notificationTmpl := "t" } }

/-- A reconcile input whose endpoint lookup fails. -/
def inpEndpointErr : SyncInput :=
  { inpNotDeployed with isDeploy := true, endpoint := .error "boom" }

/-- A reconcile input whose notifier listing fails. -/
def inpNotifierErr : SyncInput :=
  { inpNotDeployed with isDeploy := true, notifiers := .error "down" }

/-- The outcome of reconciling `inpNotDeployed`. -/
def outNotDeployed : SyncOutput :=
  { stored := inpNotDeployed.stored, published := false, opCluster := none, opProjects := [] }

/-- A webhook notifier named `n2`, distinct from `n1`. -/
def n2 : Notifier :=
  { name := "n2", pagerdutyConfig := none, webhookConfig := some { url := "http://hook" }
    slackConfig := none, smtpConfig := none }

/-- Two active project metric rules of distinct groups in project `p1`. -/
def qGA : ProjectAlertRule :=
  { name := "qa", groupName := "p1:ga", projectName := "c1:p1", displayName := "d"
    severity := "warning", alertState := "active", podRule := false, workloadRule := false
    metricRule := some "pe1"
    common := { groupWaitSeconds := 10, groupIntervalSeconds := 10, repeatIntervalSeconds := 10 } }

def qGB : ProjectAlertRule :=
  { qGA with name := "qb", groupName := "p1:gb" }

/-! ### Order lemmas for the key sort -/

lemma charListLe_cons (a b : Char) (as bs : List Char) :
    charListLe (a :: as) (b :: bs)
      = (decide (a.toNat < b.toNat) || (decide (a.toNat = b.toNat) && charListLe as bs)) := by
  simp only [charListLe]
  by_cases h1 : a.toNat < b.toNat
  · simp [h1]
  · by_cases h2 : b.toNat < a.toNat
    · simp [h1, h2, show ¬ a.toNat = b.toNat by omega]
    · simp [h1, h2, show a.toNat = b.toNat by omega]

lemma charListLe_total : ∀ a b : List Char, charListLe a b = true ∨ charListLe b a = true := by
  intro a
  induction a with
  | nil => intro b; exact Or.inl rfl
  | cons x xs ih =>
    intro b
    cases b with
    | nil => exact Or.inr rfl
    | cons y ys =>
      rw [charListLe_cons, charListLe_cons]
      simp only [Bool.or_eq_true, Bool.and_eq_true, decide_eq_true_eq]
      rcases Nat.lt_trichotomy x.toNat y.toNat with h | h | h
      · exact Or.inl (Or.inl h)
      · rcases ih ys with h' | h'
        · exact Or.inl (Or.inr ⟨h, h'⟩)
        · exact Or.inr (Or.inr ⟨h.symm, h'⟩)
      · exact Or.inr (Or.inl h)

lemma charListLe_trans : ∀ a b c : List Char,
    charListLe a b = true → charListLe b c = true → charListLe a c = true := by
  intro a
  induction a with
  | nil => intro b c _ _; rfl
  | cons x xs ih =>
    intro b c h1 h2
    cases b with
    | nil => simp [charListLe] at h1
    | cons y ys =>
      cases c with
      | nil => simp [charListLe] at h2
      | cons z zs =>
        rw [charListLe_cons] at h1 h2 ⊢
        simp only [Bool.or_eq_true, Bool.and_eq_true, decide_eq_true_eq] at h1 h2 ⊢
        rcases h1 with h1 | ⟨h1e, h1r⟩
        · rcases h2 with h2 | ⟨h2e, h2r⟩
          · exact Or.inl (by omega)
          · exact Or.inl (by omega)
        · rcases h2 with h2 | ⟨h2e, h2r⟩
          · exact Or.inl (by omega)
          · exact Or.inr ⟨by omega, ih ys zs h1r h2r⟩

lemma charListLe_antisymm : ∀ a b : List Char,
    charListLe a b = true → charListLe b a = true → a = b := by
  intro a
  induction a with
  | nil =>
    intro b _ h2
    cases b with
    | nil => rfl
    | cons y ys => simp [charListLe] at h2
  | cons x xs ih =>
    intro b h1 h2
    cases b with
    | nil => simp [charListLe] at h1
    | cons y ys =>
      rw [charListLe_cons] at h1 h2
      simp only [Bool.or_eq_true, Bool.and_eq_true, decide_eq_true_eq] at h1 h2
      rcases h1 with h1 | ⟨h1e, h1r⟩
      · rcases h2 with h2 | ⟨h2e, _⟩
        · exact absurd h1 (by omega)
        · exact absurd h1 (by omega)
      · rcases h2 with h2 | ⟨_, h2r⟩
        · exact absurd h2 (by omega)
        · have hxy : x = y := Char.ext (UInt32.ext h1e)
          rw [hxy, ih ys h1r h2r]

lemma strLeRel_total (a b : String) : strLeRel a b ∨ strLeRel b a :=
  charListLe_total a.data b.data

lemma strLeRel_trans (a b c : String) : strLeRel a b → strLeRel b c → strLeRel a c :=
  charListLe_trans a.data b.data c.data

lemma strLeRel_antisymm (a b : String) : strLeRel a b → strLeRel b a → a = b := by
  intro h1 h2
  have hd := charListLe_antisymm a.data b.data h1 h2
  cases a
  cases b
  exact congrArg String.mk hd

/-- Sorting `sortDedup` depends only on the multiset of keys: `sort.Strings` over the
keys of a Go map yields the same list regardless of insertion order. -/
lemma sortDedup_perm_eq {l1 l2 : List String} (h : l1.Perm l2) :
    sortDedup l1 = sortDedup l2 := by
  haveI : IsTotal String strLeRel := ⟨strLeRel_total⟩
  haveI : IsTrans String strLeRel := ⟨strLeRel_trans⟩
  haveI : IsAntisymm String strLeRel := ⟨strLeRel_antisymm⟩
  unfold sortDedup
  apply List.eq_of_perm_of_sorted (r := strLeRel)
  · exact ((List.perm_insertionSort _ _).trans h.dedup).trans
      (List.perm_insertionSort _ _).symm
  · exact List.sorted_insertionSort _ _
  · exact List.sorted_insertionSort _ _

/-! ### Filter lemmas -/

lemma filter_filter_of_imp {α : Type} (p q : α → Bool) (h : ∀ a, q a = true → p a = true) :
    ∀ l : List α, (l.filter p).filter q = l.filter q := by
  intro l
  induction l with
  | nil => rfl
  | cons a t ih =>
    by_cases hp : p a = true
    · by_cases hq : q a = true <;> simp [List.filter_cons, hp, hq, ih]
    · have hq : ¬ q a = true := fun hq => hp (h a hq)
      simp [List.filter_cons, hp, hq, ih]

lemma filter_append_swap {α : Type} (p : α → Bool) (a b : α) (pre post : List α)
    (h : ¬(p a = true ∧ p b = true)) :
    (pre ++ a :: b :: post).filter p = (pre ++ b :: a :: post).filter p := by
  simp only [List.filter_append, List.filter_cons]
  by_cases hpa : p a = true <;> by_cases hpb : p b = true
  · exact absurd ⟨hpa, hpb⟩ h
  · simp [hpa, hpb]
  · simp [hpa, hpb]
  · simp [hpa, hpb]

/-! ### Characterization of the Metric Rule Publisher -/

lemma clusterInnerFold (cn g : String) :
    ∀ (rules : List ClusterAlertRule) (rg : RuleGroup),
    rules.foldl (fun rg alertRule =>
      match alertRule.metricRule with
      | some m =>
        AddRule rg (Metric2Rule g (GetRuleID alertRule.groupName alertRule.name)
          alertRule.severity alertRule.displayName cn m)
      | none => rg) rg
      = { name := rg.name, rules := rg.rules ++ metricEntriesC cn g rules } := by
  intro rules
  induction rules with
  | nil => intro rg; simp [metricEntriesC]
  | cons a t ih =>
    intro rg
    cases hm : a.metricRule with
    | none => simp [List.foldl_cons, hm, ih, metricEntriesC, List.filterMap_cons]
    | some mv =>
      simp only [List.foldl_cons, hm]
      rw [ih]
      simp [AddRule, metricEntriesC, List.filterMap_cons, hm]

lemma addClusterOp_eq (cn : String) (m : String → List ClusterAlertRule) (keys : List String) :
    addClusterAlert2Operator cn m keys
      = if keys.isEmpty then none
        else some { ns := clusterMonitoringNamespace, name := cn
                    groups := keys.map (fun g => RuleGroup.mk g (metricEntriesC cn g (m g))) } := by
  have outer : ∀ (ks : List String) (b : Bool) (pr : PrometheusRule),
      ks.foldl (fun acc groupID =>
        (true, AddRuleGroup acc.2 ((m groupID).foldl (fun rg alertRule =>
          match alertRule.metricRule with
          | some mm =>
            AddRule rg (Metric2Rule groupID (GetRuleID alertRule.groupName alertRule.name)
              alertRule.severity alertRule.displayName cn mm)
          | none => rg) (GetRuleGroup groupID)))) (b, pr)
        = ((b || !ks.isEmpty),
            { ns := pr.ns, name := pr.name
              groups := pr.groups ++ ks.map (fun g => RuleGroup.mk g (metricEntriesC cn g (m g))) }) := by
    intro ks
    induction ks with
    | nil => intro b pr; simp
    | cons k t ih =>
      intro b pr
      simp only [List.foldl_cons]
      rw [clusterInnerFold cn k (m k) (GetRuleGroup k), ih]
      simp [AddRuleGroup, GetRuleGroup]
  simp only [addClusterAlert2Operator]
  rw [outer]
  cases keys with
  | nil => simp
  | cons k t => simp [GetDefaultPrometheusRule]

lemma projectInnerFold (cn g : String) :
    ∀ (rules : List ProjectAlertRule) (rg : RuleGroup),
    rules.foldl (fun rg alertRule =>
      match alertRule.metricRule with
      | some m =>
        AddRule rg (Metric2Rule g (GetRuleID alertRule.groupName alertRule.name)
          alertRule.severity alertRule.displayName cn m)
      | none => rg) rg
      = { name := rg.name, rules := rg.rules ++ metricEntriesP cn g rules } := by
  intro rules
  induction rules with
  | nil => intro rg; simp [metricEntriesP]
  | cons a t ih =>
    intro rg
    cases hm : a.metricRule with
    | none => simp [List.foldl_cons, hm, ih, metricEntriesP, List.filterMap_cons]
    | some mv =>
      simp only [List.foldl_cons, hm]
      rw [ih]
      simp [AddRule, metricEntriesP, List.filterMap_cons, hm]

lemma addProjectOp_eq (cn : String) (pg : String → String → List ProjectAlertRule)
    (gko : String → List String) (keys : List String) :
    addProjectAlert2Operator cn pg gko keys
      = (keys.filter (fun p => !(gko p).isEmpty)).map
          (fun p => projectPromRuleFor cn p (pg p) (gko p)) := by
  induction keys with
  | nil => rfl
  | cons p t ih =>
    have outer : ∀ (ks : List String) (b : Bool) (pr : PrometheusRule),
        ks.foldl (fun acc groupID =>
          (true, AddRuleGroup acc.2 ((pg p groupID).foldl (fun rg alertRule =>
            match alertRule.metricRule with
            | some mm =>
              AddRule rg (Metric2Rule groupID (GetRuleID alertRule.groupName alertRule.name)
                alertRule.severity alertRule.displayName cn mm)
            | none => rg) (GetRuleGroup groupID)))) (b, pr)
          = ((b || !ks.isEmpty),
              { ns := pr.ns, name := pr.name
                groups := pr.groups ++ ks.map (fun g => RuleGroup.mk g (metricEntriesP cn g (pg p g))) }) := by
      intro ks
      induction ks with
      | nil => intro b pr; simp
      | cons k t2 ih2 =>
        intro b pr
        simp only [List.foldl_cons]
        rw [projectInnerFold cn k (pg p k) (GetRuleGroup k), ih2]
        simp [AddRuleGroup, GetRuleGroup]
    simp only [addProjectAlert2Operator]
    rw [outer, ih]
    cases hg : gko p with
    | nil => simp [List.filter_cons, projectPromRuleFor, GetDefaultPrometheusRule, hg]
    | cons gk gt => simp [List.filter_cons, projectPromRuleFor, GetDefaultPrometheusRule, hg]

/-! ### Publish-step lemmas -/

lemma publishStep_idem (s : SecretData) (d : String) (oc : Option PrometheusRule)
    (op : List PrometheusRule) :
    publishStep (publishStep s d oc op).stored d oc op
      = { publishStep s d oc op with published := false } := by
  unfold publishStep
  by_cases h : s.alertmanagerYaml ≠ d
  · simp [h]
  · simp [h]

lemma publishStep_not_published (s : SecretData) (d : String) (oc : Option PrometheusRule)
    (op : List PrometheusRule) :
    (publishStep s d oc op).published = false → (publishStep s d oc op).stored = s := by
  unfold publishStep
  by_cases h : s.alertmanagerYaml ≠ d <;> simp [h]

lemma publishStep_published_ne (s : SecretData) (d : String) (oc : Option PrometheusRule)
    (op : List PrometheusRule) :
    (publishStep s d oc op).published = true →
      (publishStep s d oc op).stored.alertmanagerYaml ≠ s.alertmanagerYaml := by
  unfold publishStep
  by_cases h : s.alertmanagerYaml ≠ d
  · simp [h]
    exact Ne.symm h
  · simp [h]

/-! ### Notifier-order congruence -/

lemma string_append_left_cancel (s : String) {a b : String} (h : s ++ a = s ++ b) : a = b := by
  have hd : s.data ++ a.data = s.data ++ b.data := congrArg String.data h
  have hab := List.append_cancel_left hd
  cases a
  cases b
  exact congrArg String.mk hab

lemma find?_append_swap {α : Type} (p : α → Bool) (a b : α) (pre post : List α)
    (h : ¬(p a = true ∧ p b = true)) :
    (pre ++ a :: b :: post).find? p = (pre ++ b :: a :: post).find? p := by
  induction pre with
  | nil =>
    simp only [List.nil_append]
    by_cases hpa : p a = true
    · have hpb : ¬ p b = true := fun hb => h ⟨hpa, hb⟩
      rw [List.find?_cons_of_pos _ hpa, List.find?_cons_of_neg _ hpb,
        List.find?_cons_of_pos _ hpa]
    · by_cases hpb : p b = true
      · rw [List.find?_cons_of_neg _ hpa, List.find?_cons_of_pos _ hpb,
          List.find?_cons_of_pos _ hpb]
      · rw [List.find?_cons_of_neg _ hpa, List.find?_cons_of_neg _ hpb,
          List.find?_cons_of_neg _ hpb, List.find?_cons_of_neg _ hpa]
  | cons x xs ih =>
    by_cases hx : p x = true
    · rw [List.cons_append, List.cons_append, List.find?_cons_of_pos _ hx,
        List.find?_cons_of_pos _ hx]
    · rw [List.cons_append, List.cons_append, List.find?_cons_of_neg _ hx,
        List.find?_cons_of_neg _ hx, ih]

/-- Looking a notifier up by its scope-prefixed name is invariant under
swapping two adjacent notifiers with distinct names. -/
lemma getNotifier_append_swap (cn : String) (npre npost : List Notifier) (na nb : Notifier)
    (hn : na.name ≠ nb.name) (id : String) :
    getNotifier cn id (npre ++ na :: nb :: npost)
      = getNotifier cn id (npre ++ nb :: na :: npost) := by
  unfold getNotifier
  refine find?_append_swap _ na nb npre npost (fun hab => ?_)
  obtain ⟨ha, hb⟩ := hab
  rw [beq_iff_eq] at ha hb
  exact hn (string_append_left_cancel (cn ++ ":") (ha.trans hb.symm))

lemma addRecipients_congr (cn : String) {N1 N2 : List Notifier}
    (hgn : ∀ id, getNotifier cn id N1 = getNotifier cn id N2)
    (rcv : Receiver) (rs : List Recipient) :
    addRecipients cn N1 rcv rs = addRecipients cn N2 rcv rs := by
  have hstep : addRecipientStep cn N1 = addRecipientStep cn N2 := by
    funext acc r
    unfold addRecipientStep
    rw [hgn]
  unfold addRecipients
  rw [hstep]

lemma addClusterConfig_notifiers_congr (cn : String) {N1 N2 : List Notifier}
    (hgn : ∀ id, getNotifier cn id N1 = getNotifier cn id N2)
    (lister : String → Except GetErr AlertGroup) (alerts : String → List ClusterAlertRule) :
    ∀ (keys : List String) (config : Config),
    addClusterAlert2Config cn N1 lister alerts keys config
      = addClusterAlert2Config cn N2 lister alerts keys config := by
  intro keys
  induction keys with
  | nil => intro config; rfl
  | cons g rest ih =>
    intro config
    simp only [addClusterAlert2Config]
    cases hl : lister (refParse g).2 with
    | error e =>
      cases e with
      | notFound => exact ih config
      | other msg => rfl
    | ok grp =>
      dsimp only
      rw [addRecipients_congr cn hgn (emptyReceiver g) grp.recipients]
      by_cases hr : (addRecipients cn N2 (emptyReceiver g) grp.recipients).1 = true
      · rw [if_pos hr, if_pos hr, ih]
      · rw [if_neg hr, if_neg hr, ih]

lemma projectGroupLoop_notifiers_congr (cn p : String) {N1 N2 : List Notifier}
    (hgn : ∀ id, getNotifier cn id N1 = getNotifier cn id N2)
    (plister : String → String → Except GetErr AlertGroup)
    (groups : String → List ProjectAlertRule) :
    ∀ (gkeys : List String) (config : Config),
    projectGroupLoop cn p N1 plister groups gkeys config
      = projectGroupLoop cn p N2 plister groups gkeys config := by
  intro gkeys
  induction gkeys with
  | nil => intro config; rfl
  | cons g rest ih =>
    intro config
    simp only [projectGroupLoop]
    cases hl : plister p (refParse g).2 with
    | error e =>
      cases e with
      | notFound => exact ih config
      | other msg => rfl
    | ok grp =>
      dsimp only
      rw [addRecipients_congr cn hgn (emptyReceiver g) grp.recipients]
      by_cases hr : (addRecipients cn N2 (emptyReceiver g) grp.recipients).1 = true
      · rw [if_pos hr, if_pos hr, ih]
      · rw [if_neg hr, if_neg hr, ih]

lemma addProjectConfig_notifiers_congr (cn : String) {N1 N2 : List Notifier}
    (hgn : ∀ id, getNotifier cn id N1 = getNotifier cn id N2)
    (plister : String → String → Except GetErr AlertGroup)
    (pmap : String → String → List ProjectAlertRule) (gko : String → List String) :
    ∀ (keys : List String) (config : Config),
    addProjectAlert2Config cn N1 plister pmap gko keys config
      = addProjectAlert2Config cn N2 plister pmap gko keys config := by
  intro keys
  induction keys with
  | nil => intro config; rfl
  | cons p rest ih =>
    intro config
    simp only [addProjectAlert2Config]
    rw [projectGroupLoop_notifiers_congr cn p hgn plister (pmap p) (gko p) config]
    cases hpl : projectGroupLoop cn p N2 plister (pmap p) (gko p) config with
    | error e => rfl
    | ok c => exact ih c

lemma computeData_notifiers_congr (cn : String) {N1 N2 : List Notifier}
    (hgn : ∀ id, getNotifier cn id N1 = getNotifier cn id N2)
    (cRules : List ClusterAlertRule) (pRules : List ProjectAlertRule)
    (clister : String → Except GetErr AlertGroup)
    (plister : String → String → Except GetErr AlertGroup) :
    computeData cn N1 cRules pRules clister plister
      = computeData cn N2 cRules pRules clister plister := by
  have hcc : addClusterAlert2Config cn N1 clister (cAlertsMap cRules)
      = addClusterAlert2Config cn N2 clister (cAlertsMap cRules) :=
    funext fun keys => funext fun config =>
      addClusterConfig_notifiers_congr cn hgn clister (cAlertsMap cRules) keys config
  have hpc : addProjectAlert2Config cn N1 plister (pAlertsMap cn pRules) (pGroupKeys cn pRules)
      = addProjectAlert2Config cn N2 plister (pAlertsMap cn pRules) (pGroupKeys cn pRules) :=
    funext fun keys => funext fun config =>
      addProjectConfig_notifiers_congr cn hgn plister (pAlertsMap cn pRules)
        (pGroupKeys cn pRules) keys config
  unfold computeData
  rw [hcc, hpc]

/-! ### Claim theorems -/

/-- Claim C6: the reconcile writes the configuration document and the
notification-template blob only when the newly serialized bytes differ from
the currently stored bytes; when equal no write occurs, so a second reconcile
over an unchanged backing store performs zero secret-publish calls. -/
theorem publish_only_on_change (cn : String) (inp : SyncInput) (out : SyncOutput)
    (h : sync cn inp = .ok out) :
    sync cn { inp with stored := out.stored } = .ok { out with published := false }
    ∧ (out.published = false → out.stored = inp.stored)
    ∧ (out.published = true → out.stored.alertmanagerYaml ≠ inp.stored.alertmanagerYaml) := by
  obtain ⟨isD, ep, nots, crs, prs, clG, plG, st⟩ := inp
  unfold sync at h ⊢
  dsimp only at h ⊢
  by_cases hd : isD = false
  · subst hd
    rw [if_pos rfl] at h ⊢
    rw [Except.ok.injEq] at h
    subst h
    exact ⟨rfl, fun _ => rfl, fun hpub => by simp at hpub⟩
  · rw [if_neg hd] at h ⊢
    cases ep with
    | error e => cases h
    | ok u =>
      cases nots with
      | error e => cases h
      | ok notifiers =>
        cases crs with
        | error e => cases h
        | ok cRules =>
          cases prs with
          | error e => cases h
          | ok pRules =>
            dsimp only at h ⊢
            revert h
            cases hC : computeData cn notifiers cRules pRules clG plG with
            | error e => intro h; cases h
            | ok trip =>
              obtain ⟨data, opC, opP⟩ := trip
              intro h
              rw [Except.ok.injEq] at h
              subst h
              refine ⟨?_, publishStep_not_published _ _ _ _, publishStep_published_ne _ _ _ _⟩
              dsimp only
              rw [publishStep_idem]

/-- Witness for C6 at a concrete input. -/
theorem publish_only_on_change_witness :
    (sync "c1" { inpNotDeployed with stored := outNotDeployed.stored }
        = .ok { outNotDeployed with published := false })
    ∧ (outNotDeployed.published = false → outNotDeployed.stored = inpNotDeployed.stored)
    ∧ (outNotDeployed.published = true →
        outNotDeployed.stored.alertmanagerYaml ≠ inpNotDeployed.stored.alertmanagerYaml) :=
  publish_only_on_change "c1" inpNotDeployed outNotDeployed rfl

/-- Claim C7 (amended): when the monitoring stack is not deployed, reconcile
returns success without doing any work; when the endpoint lookup fails,
reconcile stops before any listing or publishing but returns the endpoint
error rather than success. -/
theorem not_ready_behavior (cn : String) (inp : SyncInput) :
    (inp.isDeploy = false →
      sync cn inp
        = .ok { stored := inp.stored, published := false, opCluster := none, opProjects := [] })
    ∧ (∀ e : String, inp.isDeploy = true → inp.endpoint = .error e → sync cn inp = .error e) := by
  constructor
  · intro h
    unfold sync
    rw [if_pos h]
  · intro e h1 h2
    unfold sync
    rw [if_neg (by simp [h1]), h2]

/-- Counterexample to C7 as stated: with the stack deployed but the endpoint
unresolved, reconcile surfaces the endpoint error instead of success. -/
theorem endpoint_error_not_success_counterexample :
    sync "c1" inpEndpointErr = .error "boom" := by
  rfl

/-- Witness for C7 at concrete inputs. -/
theorem not_ready_behavior_witness :
    sync "c1" inpNotDeployed
        = .ok { stored := inpNotDeployed.stored, published := false
                opCluster := none, opProjects := [] }
    ∧ sync "c2" inpEndpointErr = .error "boom" :=
  ⟨(not_ready_behavior "c1" inpNotDeployed).1 rfl,
   (not_ready_behavior "c2" inpEndpointErr).2 "boom" rfl rfl⟩

/-- Claim C8: listing failures and non-not-found group lookup failures abort
reconciliation with a wrapped error; a not-found owning group is tolerated by
skipping that group and continuing. -/
theorem lookup_error_handling (cn : String) :
    (∀ (inp : SyncInput) (e : String), inp.isDeploy = true → inp.endpoint = .ok () →
      inp.notifiers = .error e → sync cn inp = .error (wrapErr "List notifiers" e))
    ∧ (∀ (inp : SyncInput) (ns : List Notifier) (e : String), inp.isDeploy = true →
      inp.endpoint = .ok () → inp.notifiers = .ok ns → inp.clusterRules = .error e →
      sync cn inp = .error (wrapErr "List cluster alert rules" e))
    ∧ (∀ (inp : SyncInput) (ns : List Notifier) (cs : List ClusterAlertRule) (e : String),
      inp.isDeploy = true → inp.endpoint = .ok () → inp.notifiers = .ok ns →
      inp.clusterRules = .ok cs → inp.projectRules = .error e →
      sync cn inp = .error (wrapErr "List project alert rules" e))
    ∧ (∀ (notifiers : List Notifier) (lister : String → Except GetErr AlertGroup)
        (alerts : String → List ClusterAlertRule) (g : String) (rest : List String)
        (config : Config),
      lister (refParse g).2 = .error GetErr.notFound →
      addClusterAlert2Config cn notifiers lister alerts (g :: rest) config
        = addClusterAlert2Config cn notifiers lister alerts rest config)
    ∧ (∀ (notifiers : List Notifier) (lister : String → Except GetErr AlertGroup)
        (alerts : String → List ClusterAlertRule) (g : String) (rest : List String)
        (config : Config) (e : String),
      lister (refParse g).2 = .error (GetErr.other e) →
      addClusterAlert2Config cn notifiers lister alerts (g :: rest) config
        = .error ("get cluster alert group " ++ cn ++ ":" ++ (refParse g).2 ++ " failed, " ++ e))
    ∧ (∀ (p : String) (notifiers : List Notifier)
        (plister : String → String → Except GetErr AlertGroup)
        (groups : String → List ProjectAlertRule) (g : String) (rest : List String)
        (config : Config),
      plister p (refParse g).2 = .error GetErr.notFound →
      projectGroupLoop cn p notifiers plister groups (g :: rest) config
        = projectGroupLoop cn p notifiers plister groups rest config)
    ∧ (∀ (p : String) (notifiers : List Notifier)
        (plister : String → String → Except GetErr AlertGroup)
        (groups : String → List ProjectAlertRule) (g : String) (rest : List String)
        (config : Config) (e : String),
      plister p (refParse g).2 = .error (GetErr.other e) →
      projectGroupLoop cn p notifiers plister groups (g :: rest) config
        = .error ("get project alert group " ++ p ++ ":" ++ (refParse g).2 ++ " failed, " ++ e)) := by
  refine ⟨?_, ?_, ?_, ?_, ?_, ?_, ?_⟩
  · intro inp e h1 h2 h3
    obtain ⟨isD, ep, nots, crs, prs, clG, plG, st⟩ := inp
    cases h1; cases h2; cases h3
    unfold sync
    rfl
  · intro inp ns e h1 h2 h3 h4
    obtain ⟨isD, ep, nots, crs, prs, clG, plG, st⟩ := inp
    cases h1; cases h2; cases h3; cases h4
    unfold sync
    rfl
  · intro inp ns cs e h1 h2 h3 h4 h5
    obtain ⟨isD, ep, nots, crs, prs, clG, plG, st⟩ := inp
    cases h1; cases h2; cases h3; cases h4; cases h5
    unfold sync
    rfl
  · intro notifiers lister alerts g rest config hl
    simp only [addClusterAlert2Config, hl]
  · intro notifiers lister alerts g rest config e hl
    simp only [addClusterAlert2Config, hl]
  · intro p notifiers plister groups g rest config hl
    simp only [projectGroupLoop, hl]
  · intro p notifiers plister groups g rest config e hl
    simp only [projectGroupLoop, hl]

/-- Witness for C8 at concrete inputs. -/
theorem lookup_error_handling_witness :
    sync "c1" inpNotifierErr = .error (wrapErr "List notifiers" "down")
    ∧ addClusterAlert2Config "c1" [] (fun _ => .error GetErr.notFound) (fun _ => [])
        ["c1:g1"] cfg0
      = addClusterAlert2Config "c1" [] (fun _ => .error GetErr.notFound) (fun _ => []) [] cfg0 :=
  ⟨(lookup_error_handling "c1").1 inpNotifierErr "down" rfl rfl rfl,
   (lookup_error_handling "c1").2.2.2.1 [] (fun _ => .error GetErr.notFound) (fun _ => [])
     "c1:g1" [] cfg0 rfl⟩

/-- Claim C1: evaluation of the code at the failing input.  For a cluster
group with a resolved recipient and one active event rule, the emitted event
child node carries repeat-interval = 1s (the event value) and *omits*
group-interval (leaving the 10s default), while group-wait stays 10s: the
call site passes `eventGroupInterval` into `newRoute`'s `repeatInterval`
parameter slot. -/
theorem event_route_swapped_interval_eval :
    ((addClusterAlert2Config "c1" [n1] clister1 (cAlertsMap [rEvent]) (cAlertsKey [rEvent]) cfg0).map
      (fun c => c.route.routes.map (fun r => r.routes.map (fun s =>
        (s.mtch, s.groupWait, s.repeatInterval, s.groupInterval)))))
      = .ok [[([("alert_type", "event"), ("rule_id", "c1:g1_r1")],
            some defaultGroupWait, some eventGroupInterval, none)]] := by
  rfl

/-- Claim C2 (amended): the child node built for a non-event rule always
carries the rule's own timing fields verbatim — group-wait and
repeat-interval are emitted as given (even zero), and group-interval is
emitted exactly when it differs from the 10s default; no inheritance of the
group defaults takes place. -/
theorem rule_timing_fields_verbatim (ruleID : String) (route : Route) (comm : CommonRuleField) :
    addRule ruleID route comm
      = appendRoute route (Route.mk "" [("rule_id", ruleID)]
          (some comm.groupWaitSeconds) (some comm.repeatIntervalSeconds)
          (if comm.groupIntervalSeconds ≠ defaultGroupInterval then some comm.groupIntervalSeconds
           else none) []) := by
  rfl

/-- Counterexample to C2 as stated: a rule carrying no explicit overrides
(zero-valued timing fields) yields a node with 0s wait/interval/repeat, not
the group defaults of 10s. -/
theorem rule_timing_no_inheritance_counterexample :
    ((addRule "c1:g1_r1" (Route.mk "" [] none none none [])
        { groupWaitSeconds := 0, groupIntervalSeconds := 0, repeatIntervalSeconds := 0 }).routes.map
      (fun r => (r.groupWait, r.repeatInterval, r.groupInterval)))
      = [(some 0, some 0, some 0)]
    ∧ ((some 0, some 0, (some 0 : Option Nat))
        ≠ (some defaultGroupWait, some defaultRepeatInterval, (none : Option Nat))) := by
  constructor
  · rfl
  · decide

/-- Claim C3 (amended): the cluster container is published iff the key list
is nonempty — i.e. iff at least one group has an active rule of any kind —
and each project container is published iff that project's group-key list is
nonempty; whether any metric-rule entries were produced is not consulted. -/
theorem operator_publish_iff_group_keys (cn : String) (m : String → List ClusterAlertRule)
    (keys : List String) (pg : String → String → List ProjectAlertRule)
    (gko : String → List String) (pkeys : List String) :
    ((addClusterAlert2Operator cn m keys).isSome = !keys.isEmpty)
    ∧ addProjectAlert2Operator cn pg gko pkeys
        = (pkeys.filter (fun p => !(gko p).isEmpty)).map
            (fun p => projectPromRuleFor cn p (pg p) (gko p)) := by
  refine ⟨?_, addProjectOp_eq cn pg gko pkeys⟩
  rw [addClusterOp_eq]
  cases keys <;> simp

/-- Counterexample to C3 as stated: a scope whose only group holds a single
active event rule produces zero metric-rule entries, yet the container is
still published (with an empty rule-group entry). -/
theorem operator_publish_without_entries_counterexample :
    addClusterAlert2Operator "c1" (cAlertsMap [rEvent]) (cAlertsKey [rEvent])
      = some { ns := "cattle-prometheus", name := "c1"
               groups := [{ name := "c1:g1", rules := [] }] } := by
  rfl

/-- Claim C4: a group none of whose recipients resolves contributes no
receiver and no route node even when it has active rules, while the metrics
pipeline — which takes no notifier input at all — still attaches that
group's rule-group entry with its metric rules. -/
theorem recipient_gating (cn : String) (notifiers : List Notifier)
    (lister : String → Except GetErr AlertGroup) (alerts : String → List ClusterAlertRule)
    (g : String) (grp : AlertGroup) (rest : List String) (config : Config)
    (hlister : lister (refParse g).2 = .ok grp)
    (hres : (addRecipients cn notifiers (emptyReceiver g) grp.recipients).1 = false) :
    addClusterAlert2Config cn notifiers lister alerts (g :: rest) config
      = addClusterAlert2Config cn notifiers lister alerts rest config
    ∧ ∀ keys : List String, g ∈ keys →
        RuleGroup.mk g (metricEntriesC cn g (alerts g))
          ∈ ((addClusterAlert2Operator cn alerts keys).map PrometheusRule.groups).getD [] := by
  constructor
  · simp only [addClusterAlert2Config, hlister]
    rw [hres]
    simp
  · intro keys hk
    rw [addClusterOp_eq]
    have hne : keys.isEmpty = false := by
      cases keys with
      | nil => cases hk
      | cons x t => rfl
    rw [hne]
    simpa using List.mem_map_of_mem (fun g => RuleGroup.mk g (metricEntriesC cn g (alerts g))) hk

/-- Witness for C4 at a concrete input: a group whose recipient references a
missing notifier, owning one active metric rule. -/
theorem recipient_gating_witness :
    (addClusterAlert2Config "c1" [] (fun _ => .ok grpUnresolved) (cAlertsMap [rM1])
        ["c1:g1"] cfg0
      = addClusterAlert2Config "c1" [] (fun _ => .ok grpUnresolved) (cAlertsMap [rM1]) [] cfg0)
    ∧ RuleGroup.mk "c1:g1" (metricEntriesC "c1" "c1:g1" (cAlertsMap [rM1] "c1:g1"))
        ∈ ((addClusterAlert2Operator "c1" (cAlertsMap [rM1]) ["c1:g1"]).map
            PrometheusRule.groups).getD [] := by
  have T := recipient_gating "c1" [] (fun _ => .ok grpUnresolved) (cAlertsMap [rM1])
    "c1:g1" grpUnresolved [] cfg0 rfl (by decide)
  exact ⟨T.1, T.2 ["c1:g1"] (by decide)⟩

/-- Claim C5 (amended): rules whose state is exactly `inactive` contribute
nothing to any downstream artifact — removing them from the input listings
leaves the serialized config and all rule-CR artifacts unchanged.  (States
other than `active`, such as `alerting`, are *included*.) -/
theorem inactive_rules_immaterial (cn : String) (notifiers : List Notifier)
    (cRules : List ClusterAlertRule) (pRules : List ProjectAlertRule)
    (clister : String → Except GetErr AlertGroup)
    (plister : String → String → Except GetErr AlertGroup) :
    computeData cn notifiers (cRules.filter (fun a => !(a.alertState == "inactive")))
        (pRules.filter (fun a => !(a.alertState == "inactive"))) clister plister
      = computeData cn notifiers cRules pRules clister plister := by
  have hc : activeClusterRules (cRules.filter (fun a => !(a.alertState == "inactive")))
      = activeClusterRules cRules := by
    unfold activeClusterRules
    exact filter_filter_of_imp _ _ (fun a ha => ha) cRules
  have hp : activeProjectRules cn (pRules.filter (fun a => !(a.alertState == "inactive")))
      = activeProjectRules cn pRules := by
    unfold activeProjectRules
    refine filter_filter_of_imp _ _ (fun a ha => ?_) pRules
    simp only [Bool.and_eq_true] at ha
    exact ha.2
  have h1 : cAlertsMap (cRules.filter (fun a => !(a.alertState == "inactive")))
      = cAlertsMap cRules := funext fun g => by unfold cAlertsMap; rw [hc]
  have h2 : cAlertsKey (cRules.filter (fun a => !(a.alertState == "inactive")))
      = cAlertsKey cRules := by unfold cAlertsKey; rw [hc]
  have h3 : pAlertsMap cn (pRules.filter (fun a => !(a.alertState == "inactive")))
      = pAlertsMap cn pRules := funext fun p => funext fun g => by unfold pAlertsMap; rw [hp]
  have h4 : pGroupKeys cn (pRules.filter (fun a => !(a.alertState == "inactive")))
      = pGroupKeys cn pRules := funext fun p => by unfold pGroupKeys; rw [hp]
  have h5 : pAlertsKey cn (pRules.filter (fun a => !(a.alertState == "inactive")))
      = pAlertsKey cn pRules := by unfold pAlertsKey; rw [hp]
  unfold computeData
  rw [h1, h2, h3, h4, h5]

set_option maxRecDepth 200000 in
/-- Counterexample to C5 as stated: a rule in state `alerting` — which is
not equal to `active` — still contributes to the routing tree and to the
rule-group artifact. -/
theorem alerting_state_contributes_counterexample :
    rAlerting.alertState ≠ "active"
    ∧ computeData "c1" [n1] [rAlerting] [] clister1 plisterNF
        ≠ computeData "c1" [n1] [] [] clister1 plisterNF := by
  constructor
  · decide
  · decide

/-- Claim C9 (amended): for a fixed snapshot the pipeline is a pure function
of the lister-returned sequences; the output is invariant under reordering
cluster rules of distinct groups, under reordering project rules of distinct
(project, group) cells, and under reordering notifiers with distinct names
(group and project keys are sorted, and notifier lookup is by unique name).
It is not invariant under permuting rules of the same group, so the
byte-identical guarantee only holds per fixed per-group rule order. -/
theorem determinism_modulo_group_order (cn : String)
    (clister : String → Except GetErr AlertGroup)
    (plister : String → String → Except GetErr AlertGroup) :
    (∀ (notifiers : List Notifier) (pre post : List ClusterAlertRule)
      (a b : ClusterAlertRule) (pRules : List ProjectAlertRule),
      a.groupName ≠ b.groupName →
      computeData cn notifiers (pre ++ a :: b :: post) pRules clister plister
        = computeData cn notifiers (pre ++ b :: a :: post) pRules clister plister)
    ∧ (∀ (notifiers : List Notifier) (cRules : List ClusterAlertRule)
      (ppre ppost : List ProjectAlertRule) (q1 q2 : ProjectAlertRule),
      projectOf q1 ≠ projectOf q2 ∨ q1.groupName ≠ q2.groupName →
      computeData cn notifiers cRules (ppre ++ q1 :: q2 :: ppost) clister plister
        = computeData cn notifiers cRules (ppre ++ q2 :: q1 :: ppost) clister plister)
    ∧ (∀ (npre npost : List Notifier) (na nb : Notifier)
      (cRules : List ClusterAlertRule) (pRules : List ProjectAlertRule),
      na.name ≠ nb.name →
      computeData cn (npre ++ na :: nb :: npost) cRules pRules clister plister
        = computeData cn (npre ++ nb :: na :: npost) cRules pRules clister plister) := by
  refine ⟨?_, ?_, ?_⟩
  · intro notifiers pre post a b pRules h
    have hperm : (pre ++ a :: b :: post).Perm (pre ++ b :: a :: post) :=
      List.Perm.append_left pre (List.Perm.swap b a post)
    have hmap : cAlertsMap (pre ++ a :: b :: post) = cAlertsMap (pre ++ b :: a :: post) := by
      funext g
      unfold cAlertsMap activeClusterRules
      rw [List.filter_filter, List.filter_filter]
      refine filter_append_swap _ a b pre post (fun hab => ?_)
      obtain ⟨ha, hb⟩ := hab
      simp only [Bool.and_eq_true, beq_iff_eq] at ha hb
      exact h (ha.1.trans hb.1.symm)
    have hkey : cAlertsKey (pre ++ a :: b :: post) = cAlertsKey (pre ++ b :: a :: post) := by
      unfold cAlertsKey activeClusterRules
      exact sortDedup_perm_eq ((hperm.filter _).map _)
    unfold computeData
    rw [hmap, hkey]
  · intro notifiers cRules ppre ppost q1 q2 h
    have hperm : (ppre ++ q1 :: q2 :: ppost).Perm (ppre ++ q2 :: q1 :: ppost) :=
      List.Perm.append_left ppre (List.Perm.swap q2 q1 ppost)
    have hmap : pAlertsMap cn (ppre ++ q1 :: q2 :: ppost)
        = pAlertsMap cn (ppre ++ q2 :: q1 :: ppost) := by
      funext p g
      unfold pAlertsMap activeProjectRules
      rw [List.filter_filter, List.filter_filter]
      refine filter_append_swap _ q1 q2 ppre ppost (fun hab => ?_)
      obtain ⟨ha, hb⟩ := hab
      simp only [Bool.and_eq_true, beq_iff_eq] at ha hb
      rcases h with h | h
      · exact h (ha.1.1.trans hb.1.1.symm)
      · exact h (ha.1.2.trans hb.1.2.symm)
    have hgk : pGroupKeys cn (ppre ++ q1 :: q2 :: ppost)
        = pGroupKeys cn (ppre ++ q2 :: q1 :: ppost) := by
      funext p
      unfold pGroupKeys activeProjectRules
      exact sortDedup_perm_eq (((hperm.filter _).filter _).map _)
    have hkey : pAlertsKey cn (ppre ++ q1 :: q2 :: ppost)
        = pAlertsKey cn (ppre ++ q2 :: q1 :: ppost) := by
      unfold pAlertsKey activeProjectRules
      exact sortDedup_perm_eq ((hperm.filter _).map _)
    unfold computeData
    rw [hmap, hgk, hkey]
  · intro npre npost na nb cRules pRules h
    exact computeData_notifiers_congr cn
      (getNotifier_append_swap cn npre npost na nb h) cRules pRules clister plister

/-- Witness for C9 at concrete inputs: distinct-group cluster rules,
distinct-group project rules, and distinct-name notifiers, each listed in
either order. -/
theorem determinism_modulo_group_order_witness :
    (computeData "c1" [n1] ([] ++ rGA :: rGB :: []) [] clister1 plisterNF
      = computeData "c1" [n1] ([] ++ rGB :: rGA :: []) [] clister1 plisterNF)
    ∧ (computeData "c1" [n1] [] ([] ++ qGA :: qGB :: []) clister1 plisterNF
      = computeData "c1" [n1] [] ([] ++ qGB :: qGA :: []) clister1 plisterNF)
    ∧ (computeData "c1" ([] ++ n1 :: n2 :: []) [rM1] [] clister1 plisterNF
      = computeData "c1" ([] ++ n2 :: n1 :: []) [rM1] [] clister1 plisterNF) :=
  ⟨(determinism_modulo_group_order "c1" clister1 plisterNF).1 [n1] [] [] rGA rGB []
      (by decide),
   (determinism_modulo_group_order "c1" clister1 plisterNF).2.1 [n1] [] [] [] qGA qGB
      (Or.inr (by decide)),
   (determinism_modulo_group_order "c1" clister1 plisterNF).2.2 [] [] n1 n2 [rM1] []
      (by decide)⟩

set_option maxRecDepth 200000 in
/-- Counterexample to C9 as stated: permuting two rules of the *same* group
in the cluster rule lister's output changes the serialized bytes. -/
theorem rule_order_changes_bytes_counterexample :
    computeData "c1" [n1] [rM1, rM2] [] clister1 plisterNF
      ≠ computeData "c1" [n1] [rM2, rM1] [] clister1 plisterNF := by
  decide

/-- Claim C10: every group key of a scope's partition yields a rule-group
entry named after the group id in the published artifact, including groups
with no metric rules at all (their entries carry an empty rule list). -/
theorem rule_group_entry_for_every_key (cn : String) (m : String → List ClusterAlertRule)
    (keys : List String) (pg : String → String → List ProjectAlertRule)
    (gko : String → List String) (pkeys : List String) :
    ((addClusterAlert2Operator cn m keys).map (fun pr => pr.groups.map RuleGroup.name)
        = if keys.isEmpty then none else some keys)
    ∧ (addProjectAlert2Operator cn pg gko pkeys).map (fun pr => pr.groups.map RuleGroup.name)
        = (pkeys.filter (fun p => !(gko p).isEmpty)).map gko := by
  constructor
  · rw [addClusterOp_eq]
    cases keys with
    | nil => rfl
    | cons k t => simp [Function.comp_def]
  · rw [addProjectOp_eq]
    simp [projectPromRuleFor, List.map_map, Function.comp_def]

end ConfigSyncer
